import Mathlib

/-!
Shallow embedding of `cellfinder_napari/curation.py` (the `CurationWidget`
panel).  The host viewer's layer collection, the Qt comboboxes, the status
label and the panel's fields are modelled as an explicit state record;
panel operations become state transformers.  Operations that can raise a
Python exception return `Except PyError`; user-facing dialogs and the
(commented-out) cube-extraction invocations are collected as explicit
effects.  User input to the blocking directory dialog is passed in as an
argument.
-/

namespace CellfinderNapari

/-- Runtime type tag of a viewer layer.  `imageSubclass` and
`pointsSubclass` stand for proper Python subclasses of
`napari.layers.Image` / `napari.layers.Points`; `labels` stands for any
other layer kind. -/
inductive PyType where
  | image
  | points
  | labels
  | imageSubclass
  | pointsSubclass
deriving DecidableEq, Repr

/-- Python `isinstance`-style subtype test: a subclass tag is an instance
of its base class, and every type is an instance of itself. -/
def isSubclassOf : PyType → PyType → Bool
  | .imageSubclass, .image => true
  | .pointsSubclass, .points => true
  | t, u => t == u

/-- Label constants `Cell.CELL` / `Cell.UNKNOWN` from the external
`imlib.cells.cells.Cell` class, kept abstract. -/
inductive CellType where
  | CELL
  | UNKNOWN
deriving DecidableEq, Repr

/-- Values stored in a layer's metadata dictionary. -/
inductive MetaValue where
  | ofCellType (c : CellType)
  | ofBool (b : Bool)
deriving DecidableEq, Repr

/-- A layer's metadata store: a Python dict modelled as an association
list (insertion ordered, keys unique by construction of `dictSet`). -/
abbrev Metadata := List (String × MetaValue)

/-- Python dict assignment `d[k] = v`: overwrite the existing binding in
place, or append a new one. -/
def dictSet (d : Metadata) (k : String) (v : MetaValue) : Metadata :=
  if d.any (fun p => p.1 == k) then
    d.map (fun p => if p.1 == k then (k, v) else p)
  else
    d ++ [(k, v)]

/-- Python dict lookup `d.get(k)`. -/
def dictGet (d : Metadata) (k : String) : Option MetaValue :=
  (d.find? (fun p => p.1 == k)).map (fun p => p.2)

/-- A napari layer: its unique name, runtime type, point data (one row of
coordinates per annotated point; empty for image layers in this model)
and metadata dictionary. -/
structure Layer where
  name : String
  pytype : PyType
  data : List (List Int)
  metadata : Metadata
deriving DecidableEq, Repr

/-- A Qt combobox: its item list and current text. -/
structure ComboBox where
  items : List String
  currentText : String
deriving DecidableEq, Repr

/-- QComboBox.clear(): all items removed, selection emptied. -/
def ComboBox.clear (_c : ComboBox) : ComboBox :=
  { items := [], currentText := "" }

/-- QComboBox.addItems(xs): append items; when the box was empty the
first added item becomes current. -/
def ComboBox.addItems (c : ComboBox) (xs : List String) : ComboBox :=
  { items := c.items ++ xs,
    currentText :=
      if c.items.isEmpty && !xs.isEmpty then xs.headD "" else c.currentText }

/-- A modal informational dialog shown by `display_info`. -/
structure Dialog where
  title : String
  message : String
deriving DecidableEq, Repr

/-- A `pathlib.Path`: `Path("")` normalises to the relative path `"."`
(the current directory), so we store the normalised string. -/
structure PyPath where
  str : String
deriving DecidableEq, Repr

/-- Python `Path(s)`. -/
def Path (s : String) : PyPath :=
  ⟨if s = "" then "." else s⟩

/-- Python `Path.is_absolute` (POSIX): the path starts with a slash. -/
def PyPath.is_absolute (p : PyPath) : Bool :=
  p.str.data.head? == some '/'

/-- Python exceptions that can escape the modelled operations. -/
inductive PyError where
  | attributeError (msg : String)
  | keyError (key : String)
deriving DecidableEq, Repr

/-- A labeled cell record (`imlib.cells.cells.Cell`): a coordinate row
plus the class label. -/
structure Cell where
  pos : List Int
  cell_type : CellType
deriving DecidableEq, Repr

/-- State of the curation panel plus the part of the host viewer it
touches.  Fields mirror the attributes set in `CurationWidget.__init__`;
`viewerLayers` is the host viewer's live layer collection. -/
structure CurationWidget where
  viewerLayers : List Layer
  signal_layer : Option Layer
  background_layer : Option Layer
  training_data_cell_layer : Option Layer
  training_data_non_cell_layer : Option Layer
  image_layer_names : List String
  point_layer_names : List String
  signal_image_choice : ComboBox
  background_image_choice : ComboBox
  training_data_cell_choice : ComboBox
  training_data_non_cell_choice : ComboBox
  status_label : String
  output_directory : Option PyPath
  cells_to_extract : Option (List Cell)
  non_cells_to_extract : Option (List Cell)
deriving DecidableEq, Repr

/-- The list comprehension in `CurationWidget._get_layer_names`:
`[layer.name for layer in self.viewer.layers if type(layer) == layer_type]`.
Note the exact runtime-type equality (`type(layer) ==`), not
`isinstance`. -/
def get_layer_names (w : CurationWidget) (layer_type : PyType := .image) :
    List String :=
  (w.viewerLayers.filter (fun l => l.pytype == layer_type)).map Layer.name

/-- The static helper `CurationWidget._update_combobox_options`. -/
def update_combobox_options (combobox : ComboBox) (options_list : List String) :
    ComboBox :=
  combobox.clear.addItems options_list

/-- The `update_layer_list` callback registered on
`viewer.layers.events`: recompute both name lists and repopulate the four
comboboxes (the signal combobox is cleared once more before its refill,
with no observable difference). -/
def update_layer_list (w : CurationWidget) : CurationWidget :=
  let imageNames := get_layer_names w
  let pointNames := get_layer_names w .points
  { w with
    image_layer_names := imageNames
    point_layer_names := pointNames
    signal_image_choice :=
      update_combobox_options w.signal_image_choice.clear imageNames
    background_image_choice :=
      update_combobox_options w.background_image_choice imageNames
    training_data_cell_choice :=
      update_combobox_options w.training_data_cell_choice pointNames
    training_data_non_cell_choice :=
      update_combobox_options w.training_data_non_cell_choice pointNames }

/-- Name lookup `self.viewer.layers[name]` (napari keeps layer names
unique; with duplicates the first match is returned). -/
def lookupLayer (layers : List Layer) (name : String) : Option Layer :=
  layers.find? (fun l => l.name == name)

/-- The two metadata writes shared by both training-data selection
callbacks: `metadata["point_type"] = c; metadata["training_data"] = True`. -/
def tagLayer (l : Layer) (c : CellType) : Layer :=
  { l with
    metadata :=
      dictSet (dictSet l.metadata "point_type" (.ofCellType c))
        "training_data" (.ofBool true) }

/-- Mutate (in the viewer's collection) the layer registered under
`name`, applying the metadata writes of `tagLayer`; only the first match
is touched, mirroring mutation through the single object returned by
name lookup. -/
def setLayerMeta (layers : List Layer) (name : String) (c : CellType) :
    List Layer :=
  match layers with
  | [] => []
  | l :: rest =>
      if l.name == name then tagLayer l c :: rest
      else l :: setLayerMeta rest name c

/-- `CurationWidget.set_training_data_cell`: no-op on empty selection,
otherwise resolve the name, store the handle and write the two metadata
keys.  A stale selection (name no longer in the viewer) raises KeyError
in the host lookup. -/
def set_training_data_cell (w : CurationWidget) :
    Except PyError CurationWidget :=
  if w.training_data_cell_choice.currentText = "" then .ok w
  else
    match lookupLayer w.viewerLayers w.training_data_cell_choice.currentText with
    | none => .error (.keyError w.training_data_cell_choice.currentText)
    | some l =>
        .ok { w with
          viewerLayers :=
            setLayerMeta w.viewerLayers w.training_data_cell_choice.currentText
              .CELL
          training_data_cell_layer := some (tagLayer l .CELL) }

/-- `CurationWidget.set_training_data_non_cell`, symmetric with the
`UNKNOWN` label. -/
def set_training_data_non_cell (w : CurationWidget) :
    Except PyError CurationWidget :=
  if w.training_data_non_cell_choice.currentText = "" then .ok w
  else
    match lookupLayer w.viewerLayers
        w.training_data_non_cell_choice.currentText with
    | none => .error (.keyError w.training_data_non_cell_choice.currentText)
    | some l =>
        .ok { w with
          viewerLayers :=
            setLayerMeta w.viewerLayers
              w.training_data_non_cell_choice.currentText .UNKNOWN
          training_data_non_cell_layer := some (tagLayer l .UNKNOWN) }

/-- The layer built by `viewer.add_points(np.empty((0, 3)), ...)` inside
`add_training_data`: an empty points layer carrying the label and
training-data metadata (visual styling is not observable here). -/
def newPointsLayer (name : String) (c : CellType) : Layer :=
  { name := name
    pytype := .points
    data := []
    metadata := [("point_type", .ofCellType c), ("training_data", .ofBool true)] }

/-- `CurationWidget.add_training_data`.  Faithful detail: BOTH
`add_points` results are assigned to `training_data_cell_layer` (the
second assignment in the source also targets the cell field), and the two
`setCurrentText` calls set the dropdown texts (the Qt signal cascade
wired in `.utils` is outside the modelled source). -/
def add_training_data (w : CurationWidget)
    (cell_name : String := "Training data (cells)")
    (non_cell_name : String := "Training data (non cells)") : CurationWidget :=
  let cellLayer := newPointsLayer cell_name .CELL
  let w1 := { w with
    viewerLayers := w.viewerLayers ++ [cellLayer]
    training_data_cell_layer := some cellLayer }
  let nonCellLayer := newPointsLayer non_cell_name .UNKNOWN
  let w2 := { w1 with
    viewerLayers := w1.viewerLayers ++ [nonCellLayer]
    training_data_cell_layer := some nonCellLayer }
  { w2 with
    training_data_cell_choice :=
      { w2.training_data_cell_choice with currentText := cell_name }
    training_data_non_cell_choice :=
      { w2.training_data_non_cell_choice with currentText := non_cell_name } }

/-- Dialog shown when no training layer has been set. -/
def noLayersDialog : Dialog :=
  { title := "No training data"
    message := "No training data layers have been added. Please add a layer and annotate some points." }

/-- Dialog shown when the set training layers contain no points. -/
def noPointsDialog : Dialog :=
  { title := "No training data"
    message := "No training data points have been added. Please annotate some points." }

/-- Message of the AttributeError raised by dereferencing `.data` on a
`None` training-layer field. -/
def attrDataMsg : String :=
  "NoneType object has no attribute data"

/-- `CurationWidget.check_training_data_exists`.  The outer guard tests
`not (cell_layer or non_cell_layer)` (object truthiness, i.e. both are
None); the inner test evaluates
`len(cell_layer.data) > 0 or len(non_cell_layer.data) > 0` with Python
short-circuiting, so a `None` field reached by that expression raises
AttributeError. -/
def check_training_data_exists (w : CurationWidget) :
    Except PyError (Bool × List Dialog) :=
  if w.training_data_cell_layer.isNone && w.training_data_non_cell_layer.isNone
  then
    .ok (false, [noLayersDialog])
  else
    match w.training_data_cell_layer with
    | none => .error (.attributeError attrDataMsg)
    | some cell =>
        if cell.data.length > 0 then .ok (true, [])
        else
          match w.training_data_non_cell_layer with
          | none => .error (.attributeError attrDataMsg)
          | some nonCell =>
              if nonCell.data.length > 0 then .ok (true, [])
              else .ok (false, [noPointsDialog])

/-- `CurationWidget.get_output_directory`: set the status label, run the
blocking directory dialog (its result is the `dialogResult` argument; the
empty string means the user cancelled) and store `Path(result)`. -/
def get_output_directory (w : CurationWidget) (dialogResult : String) :
    CurationWidget :=
  { w with
    status_label := "Setting output directory..."
    output_directory := some (Path dialogResult) }

/-- Modelled from the spec: the external cell-record conversion helper
`convert_layer_to_cells` (imported from `brainglobe_napari_io`, whose
source is not part of this repository).  Per the spec it "takes a point
layer's raw coordinate array and a boolean is-cell flag, returns a list
of labeled cell records". -/
def convert_layer_to_cells (layer_data : List (List Int))
    (cells : Bool := true) : List Cell :=
  layer_data.map (fun point =>
    { pos := point
      cell_type := if cells then CellType.CELL else CellType.UNKNOWN })

/-- `CurationWidget.convert_layers_to_cells`: both training-layer fields
are dereferenced unconditionally (cell first), so a `None` field raises
AttributeError. -/
def convert_layers_to_cells (w : CurationWidget) :
    Except PyError CurationWidget :=
  match w.training_data_cell_layer with
  | none => .error (.attributeError attrDataMsg)
  | some cell =>
      match w.training_data_non_cell_layer with
      | none => .error (.attributeError attrDataMsg)
      | some nonCell =>
          .ok { w with
            cells_to_extract := some (convert_layer_to_cells cell.data)
            non_cells_to_extract :=
              some (convert_layer_to_cells nonCell.data false) }

/-- Observable side effects of a panel action: dialogs shown and the
number of invocations of the external `extract_cubes_main` routine. -/
structure Effects where
  dialogs : List Dialog
  extraction_calls : Nat
deriving DecidableEq, Repr

/-- `CurationWidget.extract_cubes`: gated on the validation check; on
success it runs `get_output_directory`, sets the busy status, converts
the layers and resets the status to Ready.  The whole cube-extraction
loop is commented out in the source, so `extraction_calls` is always 0. -/
def extract_cubes (w : CurationWidget) (dialogResult : String) :
    Except PyError (CurationWidget × Effects) :=
  match check_training_data_exists w with
  | .error e => .error e
  | .ok (ok, dialogs) =>
      if ok then
        let w1 := get_output_directory w dialogResult
        let w2 := { w1 with status_label := "Extracting cubes" }
        match convert_layers_to_cells w2 with
        | .error e => .error e
        | .ok w3 =>
            .ok ({ w3 with status_label := "Ready" },
              { dialogs := dialogs, extraction_calls := 0 })
      else
        .ok (w, { dialogs := dialogs, extraction_calls := 0 })

/-- An empty combobox. -/
def emptyCombo : ComboBox :=
  { items := [], currentText := "" }

/-- The widget right after `__init__` against an empty viewer: no layers,
no selections, status Ready. -/
def blankWidget : CurationWidget :=
  { viewerLayers := []
    signal_layer := none
    background_layer := none
    training_data_cell_layer := none
    training_data_non_cell_layer := none
    image_layer_names := []
    point_layer_names := []
    signal_image_choice := emptyCombo
    background_image_choice := emptyCombo
    training_data_cell_choice := emptyCombo
    training_data_non_cell_choice := emptyCombo
    status_label := "Ready"
    output_directory := none
    cells_to_extract := none
    non_cells_to_extract := none }

/-- A non-cell training points layer holding one annotated point. -/
def oneNonCellPointLayer : Layer :=
  { name := "nc"
    pytype := .points
    data := [[1, 2, 3]]
    metadata := [("point_type", .ofCellType .UNKNOWN), ("training_data", .ofBool true)] }

/-- A cell training points layer holding one annotated point. -/
def oneCellPointLayer : Layer :=
  { name := "c"
    pytype := .points
    data := [[4, 5, 6]]
    metadata := [("point_type", .ofCellType .CELL), ("training_data", .ofBool true)] }

/-- True when an operation returned normally (no Python exception). -/
def noExcept {α : Type} : Except PyError α → Bool
  | .ok _ => true
  | .error _ => false

/-! Helper lemmas about the dict model and the layer collection. -/

theorem find?_map_upd (d : Metadata) (k : String) (v : MetaValue)
    (h : d.any (fun p => p.1 == k) = true) :
    (d.map (fun p => if p.1 == k then (k, v) else p)).find?
        (fun p => p.1 == k) = some (k, v) := by
  induction d with
  | nil => simp at h
  | cons q rest ih =>
      rw [List.map_cons]
      by_cases hq : q.1 = k
      · rw [if_pos (by simpa using hq)]
        exact List.find?_cons_of_pos _ (by simp)
      · rw [if_neg (by simpa using hq),
          List.find?_cons_of_neg _ (by simpa using hq)]
        apply ih
        simp only [List.any_cons, Bool.or_eq_true, beq_iff_eq] at h
        rcases h with h | h
        · exact absurd h hq
        · exact h

theorem find?_map_upd_other (d : Metadata) (k k2 : String) (v : MetaValue)
    (h : k2 ≠ k) :
    (d.map (fun p => if p.1 == k then (k, v) else p)).find?
        (fun p => p.1 == k2) = d.find? (fun p => p.1 == k2) := by
  induction d with
  | nil => rfl
  | cons q rest ih =>
      rw [List.map_cons]
      by_cases hq : q.1 = k
      · rw [if_pos (by simpa using hq)]
        rw [List.find?_cons_of_neg _
          (by simp only [beq_iff_eq]; exact fun hh => h hh.symm)]
        rw [List.find?_cons_of_neg _
          (by simp only [beq_iff_eq, hq]; exact fun hh => h hh.symm)]
        exact ih
      · rw [if_neg (by simpa using hq)]
        by_cases hq2 : q.1 = k2
        · rw [List.find?_cons_of_pos _ (by simpa using hq2),
            List.find?_cons_of_pos _ (by simpa using hq2)]
        · rw [List.find?_cons_of_neg _ (by simpa using hq2),
            List.find?_cons_of_neg _ (by simpa using hq2)]
          exact ih

theorem dictGet_dictSet_same (d : Metadata) (k : String) (v : MetaValue) :
    dictGet (dictSet d k v) k = some v := by
  by_cases h : d.any (fun p => p.1 == k) = true
  · simp only [dictSet, if_pos h, dictGet]
    rw [find?_map_upd d k v h]
    rfl
  · simp only [dictSet, if_neg h, dictGet, List.find?_append]
    have hnone : d.find? (fun p => p.1 == k) = none := by
      rw [List.find?_eq_none]
      intro x hx
      by_contra hcontra
      exact h (List.any_of_mem hx (by simpa using hcontra))
    have hlast : (([(k, v)] : Metadata)).find? (fun p => p.1 == k)
        = some (k, v) := List.find?_cons_of_pos _ (by simp)
    simp [hnone, hlast]

theorem dictGet_dictSet_other (d : Metadata) (k k2 : String) (v : MetaValue)
    (h : k2 ≠ k) : dictGet (dictSet d k v) k2 = dictGet d k2 := by
  by_cases hany : d.any (fun p => p.1 == k) = true
  · simp only [dictSet, if_pos hany, dictGet, find?_map_upd_other d k k2 v h]
  · simp only [dictSet, if_neg hany, dictGet, List.find?_append]
    have hlast : ([(k, v)] : Metadata).find? (fun p => p.1 == k2) = none := by
      have hkk : (k == k2) = false := by
        simp only [beq_eq_false_iff_ne, ne_eq]
        exact fun hh => h hh.symm
      simp [List.find?_cons, hkk]
    cases hd : d.find? (fun p => p.1 == k2) <;> simp [hlast]

theorem tagLayer_point_type (l : Layer) (c : CellType) :
    dictGet (tagLayer l c).metadata "point_type"
      = some (.ofCellType c) := by
  simp only [tagLayer]
  rw [dictGet_dictSet_other _ _ _ _ (by decide)]
  exact dictGet_dictSet_same _ _ _

theorem tagLayer_training_flag (l : Layer) (c : CellType) :
    dictGet (tagLayer l c).metadata "training_data" = some (.ofBool true) :=
  dictGet_dictSet_same _ _ _

theorem tagLayer_other_keys (l : Layer) (c : CellType) (k : String)
    (h1 : k ≠ "point_type") (h2 : k ≠ "training_data") :
    dictGet (tagLayer l c).metadata k = dictGet l.metadata k := by
  simp only [tagLayer]
  rw [dictGet_dictSet_other _ _ _ _ h2, dictGet_dictSet_other _ _ _ _ h1]

theorem setLayerMeta_length (layers : List Layer) (name : String)
    (c : CellType) : (setLayerMeta layers name c).length = layers.length := by
  induction layers with
  | nil => rfl
  | cons l rest ih =>
      by_cases h : l.name == name
      · simp [setLayerMeta, h]
      · simp [setLayerMeta, h, ih]

theorem setLayerMeta_mem_of_ne (layers : List Layer) (name : String)
    (c : CellType) (x : Layer) (hx : x ∈ setLayerMeta layers name c)
    (hne : x.name ≠ name) : x ∈ layers := by
  induction layers with
  | nil => simp [setLayerMeta] at hx
  | cons l rest ih =>
      by_cases h : l.name = name
      · rw [setLayerMeta, if_pos (by simpa using h)] at hx
        rcases List.mem_cons.mp hx with heq | hmem
        · exact absurd (by rw [heq]; exact h) hne
        · exact List.mem_cons_of_mem _ hmem
      · rw [setLayerMeta, if_neg (by simpa using h)] at hx
        rcases List.mem_cons.mp hx with heq | hmem
        · exact heq ▸ List.mem_cons_self _ _
        · exact List.mem_cons_of_mem _ (ih hmem)

theorem setLayerMeta_mem_of_mem (layers : List Layer) (name : String)
    (c : CellType) (x : Layer) (hx : x ∈ layers) (hne : x.name ≠ name) :
    x ∈ setLayerMeta layers name c := by
  induction layers with
  | nil => simp at hx
  | cons l rest ih =>
      by_cases h : l.name = name
      · rw [setLayerMeta, if_pos (by simpa using h)]
        rcases List.mem_cons.mp hx with heq | hmem
        · exact absurd (by rw [heq]; exact h) hne
        · exact List.mem_cons_of_mem _ hmem
      · rw [setLayerMeta, if_neg (by simpa using h)]
        rcases List.mem_cons.mp hx with heq | hmem
        · exact heq ▸ List.mem_cons_self _ _
        · exact List.mem_cons_of_mem _ (ih hmem)

theorem mem_get_layer_names (w : CurationWidget) (t : PyType) (n : String) :
    n ∈ get_layer_names w t ↔
      ∃ l, l ∈ w.viewerLayers ∧ l.pytype = t ∧ l.name = n := by
  simp only [get_layer_names, List.mem_map, List.mem_filter, beq_iff_eq]
  constructor
  · rintro ⟨l, ⟨hl, ht⟩, hn⟩
    exact ⟨l, hl, ht, hn⟩
  · rintro ⟨l, hl, ht, hn⟩
    exact ⟨l, ⟨hl, ht⟩, hn⟩

theorem nodup_get_layer_names (w : CurationWidget) (t : PyType)
    (hnd : (w.viewerLayers.map Layer.name).Nodup) :
    (get_layer_names w t).Nodup := by
  have hsub :
      List.Sublist
        ((w.viewerLayers.filter (fun l => l.pytype == t)).map Layer.name)
        (w.viewerLayers.map Layer.name) :=
    (List.filter_sublist _).map Layer.name
  exact hnd.sublist hsub

theorem update_combobox_options_items (c : ComboBox) (xs : List String) :
    (update_combobox_options c xs).items = xs := by
  simp [update_combobox_options, ComboBox.clear, ComboBox.addItems]

/-- A widget with both training-layer fields set: one cell point, an
empty non-cell layer. -/
def wBoth : CurationWidget :=
  { blankWidget with
    training_data_cell_layer := some oneCellPointLayer
    training_data_non_cell_layer := some (newPointsLayer "nc0" .UNKNOWN) }

/-- A widget with only the non-cell training layer set (one point). -/
def wNonCellOnly : CurationWidget :=
  { blankWidget with
    training_data_non_cell_layer := some oneNonCellPointLayer }

/-- A widget with only the cell training layer set (one point). -/
def wCellOnly : CurationWidget :=
  { blankWidget with
    training_data_cell_layer := some oneCellPointLayer }

/-!  Claim theorems. -/

/-- Claim C1 (counterexample): in the panel state where only the
non-cell training layer is set and it holds one point, the claim says
`check_training_data_exists` returns true; the code instead raises
AttributeError while evaluating `len(self.training_data_cell_layer.data)`
on the unset (None) cell-layer field. -/
theorem check_training_data_claim_counterexample :
    wNonCellOnly.training_data_non_cell_layer.map (fun l => l.data.length)
        = some 1 ∧
    check_training_data_exists wNonCellOnly
      = .error (.attributeError attrDataMsg) := by
  exact ⟨rfl, rfl⟩

/-- Claim C1 (amended): `check_training_data_exists` returns false with
the no-layers dialog when neither training layer is set; returns true
when the cell layer is set with at least one point; with both layers set
it returns true when either has a point and false with the no-points
dialog when both are empty; but when only one layer is set the
short-circuit evaluation can dereference the unset field, raising
AttributeError (non-cell-only states, and cell-only states whose cell
layer is empty) instead of returning a boolean. -/
theorem check_training_data_exists_characterized (w : CurationWidget) :
    (w.training_data_cell_layer = none →
      w.training_data_non_cell_layer = none →
      check_training_data_exists w = .ok (false, [noLayersDialog])) ∧
    (∀ c, w.training_data_cell_layer = some c → 0 < c.data.length →
      check_training_data_exists w = .ok (true, [])) ∧
    (∀ c n, w.training_data_cell_layer = some c →
      w.training_data_non_cell_layer = some n → c.data.length = 0 →
      0 < n.data.length →
      check_training_data_exists w = .ok (true, [])) ∧
    (∀ c n, w.training_data_cell_layer = some c →
      w.training_data_non_cell_layer = some n → c.data.length = 0 →
      n.data.length = 0 →
      check_training_data_exists w = .ok (false, [noPointsDialog])) ∧
    (∀ n, w.training_data_cell_layer = none →
      w.training_data_non_cell_layer = some n →
      check_training_data_exists w = .error (.attributeError attrDataMsg)) ∧
    (∀ c, w.training_data_cell_layer = some c → c.data.length = 0 →
      w.training_data_non_cell_layer = none →
      check_training_data_exists w = .error (.attributeError attrDataMsg)) := by
  refine ⟨?_, ?_, ?_, ?_, ?_, ?_⟩
  · intro hc hn
    simp [check_training_data_exists, hc, hn]
  · intro c hc hlen
    simp [check_training_data_exists, hc, hlen]
  · intro c n hc hn hc0 hn1
    simp [check_training_data_exists, hc, hn, hc0, hn1]
  · intro c n hc hn hc0 hn0
    simp [check_training_data_exists, hc, hn, hc0, hn0]
  · intro n hc hn
    simp [check_training_data_exists, hc, hn]
  · intro c hc hc0 hn
    simp [check_training_data_exists, hc, hc0, hn]

/-- Claim C1 (witness): the characterization applied at the concrete
state with both layers set and one cell point. -/
theorem check_training_data_exists_characterized_witness :
    check_training_data_exists wBoth = .ok (true, []) :=
  (check_training_data_exists_characterized wBoth).2.1
    oneCellPointLayer rfl (by decide)

/-- Claim C2 (counterexample): with only the non-cell training layer set
(one point), both `check_training_data_exists` and `extract_cubes` let an
AttributeError escape the panel boundary instead of showing a dialog. -/
theorem panel_exception_escape_counterexample :
    check_training_data_exists wNonCellOnly
        = .error (.attributeError attrDataMsg) ∧
    extract_cubes wNonCellOnly "/output"
        = .error (.attributeError attrDataMsg) := by
  exact ⟨rfl, rfl⟩

/-- Claim C2 (amended): failures are handled by dialogs and no exception
escapes `check_training_data_exists` or `extract_cubes` whenever the two
training-layer fields are both set or both unset; when exactly one field
is set, an AttributeError can escape (shown by the counterexample). -/
theorem no_exception_when_fields_balanced (w : CurationWidget) (s : String)
    (h : w.training_data_cell_layer.isSome
      = w.training_data_non_cell_layer.isSome) :
    noExcept (check_training_data_exists w) = true ∧
    noExcept (extract_cubes w s) = true := by
  cases hc : w.training_data_cell_layer with
  | none =>
      cases hn : w.training_data_non_cell_layer with
      | none =>
          constructor <;>
            simp [check_training_data_exists, extract_cubes, noExcept, hc, hn]
      | some n =>
          rw [hc, hn] at h
          simp at h
  | some c =>
      cases hn : w.training_data_non_cell_layer with
      | none =>
          rw [hc, hn] at h
          simp at h
      | some n =>
          by_cases h1 : 0 < c.data.length
          · constructor <;>
              simp [check_training_data_exists, extract_cubes, noExcept,
                get_output_directory, convert_layers_to_cells, hc, hn, h1]
          · by_cases h2 : 0 < n.data.length
            · constructor <;>
                simp [check_training_data_exists, extract_cubes, noExcept,
                  get_output_directory, convert_layers_to_cells, hc, hn, h1, h2]
            · constructor <;>
                simp [check_training_data_exists, extract_cubes, noExcept,
                  get_output_directory, convert_layers_to_cells, hc, hn, h1, h2]

/-- Claim C2 (witness): the amended statement applied at the freshly
initialised widget (no training layers set). -/
theorem no_exception_when_fields_balanced_witness :
    noExcept (check_training_data_exists blankWidget) = true ∧
    noExcept (extract_cubes blankWidget "") = true :=
  no_exception_when_fields_balanced blankWidget "" rfl

/-- Claim C3: `add_training_data` always appends exactly two fresh point
layers to the viewer (never reusing existing ones), each created with
zero points, the first labelled `CELL` and the second `UNKNOWN`, both
with the training-data flag set, and sets the two training-data dropdown
texts to the two new layers' names. -/
theorem add_training_data_two_fresh_layers (w : CurationWidget)
    (cn ncn : String) :
    (add_training_data w cn ncn).viewerLayers
      = w.viewerLayers
        ++ [newPointsLayer cn .CELL, newPointsLayer ncn .UNKNOWN] ∧
    (newPointsLayer cn .CELL).data.length = 0 ∧
    (newPointsLayer ncn .UNKNOWN).data.length = 0 ∧
    (newPointsLayer cn .CELL).pytype = PyType.points ∧
    (newPointsLayer ncn .UNKNOWN).pytype = PyType.points ∧
    (newPointsLayer cn .CELL).name = cn ∧
    (newPointsLayer ncn .UNKNOWN).name = ncn ∧
    dictGet (newPointsLayer cn .CELL).metadata "point_type"
      = some (.ofCellType .CELL) ∧
    dictGet (newPointsLayer ncn .UNKNOWN).metadata "point_type"
      = some (.ofCellType .UNKNOWN) ∧
    dictGet (newPointsLayer cn .CELL).metadata "training_data"
      = some (.ofBool true) ∧
    dictGet (newPointsLayer ncn .UNKNOWN).metadata "training_data"
      = some (.ofBool true) ∧
    (add_training_data w cn ncn).training_data_cell_choice.currentText
      = cn ∧
    (add_training_data w cn ncn).training_data_non_cell_choice.currentText
      = ncn := by
  refine ⟨?_, rfl, rfl, rfl, rfl, rfl, rfl, ?_, ?_, ?_, ?_, rfl, rfl⟩
  · simp [add_training_data, List.append_assoc]
  all_goals
    simp [newPointsLayer, dictGet, List.find?_cons]

/-- Claim C8: inside `add_training_data` both freshly created layers are
assigned to the `training_data_cell_layer` field, so after the method's
own assignments that field holds the second (non-cell, `UNKNOWN`) layer
and not the first (cell) layer, while `training_data_non_cell_layer` is
never assigned directly and keeps its previous value. -/
theorem add_training_data_assigns_cell_field_twice (w : CurationWidget)
    (cn ncn : String) :
    (add_training_data w cn ncn).training_data_cell_layer
      = some (newPointsLayer ncn .UNKNOWN) ∧
    (add_training_data w cn ncn).training_data_cell_layer
      ≠ some (newPointsLayer cn .CELL) ∧
    (add_training_data w cn ncn).training_data_non_cell_layer
      = w.training_data_non_cell_layer := by
  refine ⟨rfl, ?_, rfl⟩
  intro hEq
  simp [add_training_data, newPointsLayer] at hEq

/-- Claim C4 (counterexample): in the state where only the cell training
layer is set and holds one point, validation returns true, yet
`extract_cubes` neither converts both layers nor resets the status to
Ready: it raises AttributeError inside `convert_layers_to_cells` when
dereferencing the unset non-cell layer. -/
theorem extract_cubes_claim_counterexample :
    check_training_data_exists wCellOnly = .ok (true, []) ∧
    extract_cubes wCellOnly "/output"
      = .error (.attributeError attrDataMsg) := by
  exact ⟨rfl, rfl⟩

/-- Claim C4 (amended): `extract_cubes` is gated by the validation
check — when validation returns false the widget state is returned
unchanged with no extraction call; when validation returns true AND both
training-layer fields are set, it resolves the output directory to
`Path(dialog result)`, stores the two converted labeled record lists in
`cells_to_extract` / `non_cells_to_extract`, performs zero
cube-extraction invocations, and finishes with the status label reset to
Ready.  (When validation returns true with the non-cell field unset, an
AttributeError is raised instead — see the counterexample.) -/
theorem extract_cubes_gated (w : CurationWidget) (s : String) :
    (∀ ds, check_training_data_exists w = .ok (false, ds) →
      extract_cubes w s = .ok (w, { dialogs := ds, extraction_calls := 0 })) ∧
    (∀ c n, w.training_data_cell_layer = some c →
      w.training_data_non_cell_layer = some n →
      check_training_data_exists w = .ok (true, []) →
      extract_cubes w s = .ok
        ({ w with
            status_label := "Ready"
            output_directory := some (Path s)
            cells_to_extract := some (convert_layer_to_cells c.data)
            non_cells_to_extract :=
              some (convert_layer_to_cells n.data false) },
          { dialogs := [], extraction_calls := 0 })) := by
  constructor
  · intro ds h
    simp [extract_cubes, h]
  · intro c n hc hn h
    simp [extract_cubes, h, get_output_directory, convert_layers_to_cells,
      hc, hn]

/-- Claim C4 (witness): the gating theorem applied at the concrete state
with both training layers set, exhibiting the full success path. -/
theorem extract_cubes_gated_witness :
    extract_cubes wBoth "/output"
      = .ok
        ({ wBoth with
            status_label := "Ready"
            output_directory := some (Path "/output")
            cells_to_extract :=
              some (convert_layer_to_cells oneCellPointLayer.data)
            non_cells_to_extract :=
              some (convert_layer_to_cells
                (newPointsLayer "nc0" .UNKNOWN).data false) },
          { dialogs := [], extraction_calls := 0 }) :=
  (extract_cubes_gated wBoth "/output").2 oneCellPointLayer
    (newPointsLayer "nc0" .UNKNOWN) rfl rfl rfl

/-- A signal image layer. -/
def imgLayer : Layer :=
  { name := "sig", pytype := .image, data := [], metadata := [] }

/-- A background image layer. -/
def bgLayer : Layer :=
  { name := "bg", pytype := .image, data := [], metadata := [] }

/-- A plain points layer holding one point. -/
def ptsLayer : Layer :=
  { name := "pts", pytype := .points, data := [[7, 8, 9]], metadata := [] }

/-- A layer whose runtime type is a proper subclass of
`napari.layers.Points`. -/
def subPtsLayer : Layer :=
  { name := "subpts", pytype := .pointsSubclass, data := [], metadata := [] }

/-- A viewer populated with two images, a points layer and a
points-subclass layer. -/
def wDemo : CurationWidget :=
  { blankWidget with
    viewerLayers := [imgLayer, bgLayer, ptsLayer, subPtsLayer] }

/-- A viewer with a points layer selected in the cell dropdown. -/
def wSel : CurationWidget :=
  { blankWidget with
    viewerLayers := [imgLayer, ptsLayer]
    training_data_cell_choice := { items := ["pts"], currentText := "pts" } }

/-- Claim C5: after the layer-events callback runs, each of the four
dropdowns holds exactly the names of the viewer's current layers of its
matching kind (exact runtime type), with no stale entries; and the item
lists are duplicate-free whenever the viewer's layer names are unique
(which the host guarantees). -/
theorem update_layer_list_exact (w : CurationWidget)
    (hnd : (w.viewerLayers.map Layer.name).Nodup) :
    (∀ n, n ∈ (update_layer_list w).signal_image_choice.items ↔
      ∃ l, l ∈ w.viewerLayers ∧ l.pytype = PyType.image ∧ l.name = n) ∧
    (update_layer_list w).signal_image_choice.items.Nodup ∧
    (∀ n, n ∈ (update_layer_list w).background_image_choice.items ↔
      ∃ l, l ∈ w.viewerLayers ∧ l.pytype = PyType.image ∧ l.name = n) ∧
    (update_layer_list w).background_image_choice.items.Nodup ∧
    (∀ n, n ∈ (update_layer_list w).training_data_cell_choice.items ↔
      ∃ l, l ∈ w.viewerLayers ∧ l.pytype = PyType.points ∧ l.name = n) ∧
    (update_layer_list w).training_data_cell_choice.items.Nodup ∧
    (∀ n, n ∈ (update_layer_list w).training_data_non_cell_choice.items ↔
      ∃ l, l ∈ w.viewerLayers ∧ l.pytype = PyType.points ∧ l.name = n) ∧
    (update_layer_list w).training_data_non_cell_choice.items.Nodup := by
  have hsig : (update_layer_list w).signal_image_choice.items
      = get_layer_names w := by
    simp [update_layer_list, update_combobox_options_items]
  have hbg : (update_layer_list w).background_image_choice.items
      = get_layer_names w := by
    simp [update_layer_list, update_combobox_options_items]
  have hcell : (update_layer_list w).training_data_cell_choice.items
      = get_layer_names w .points := by
    simp [update_layer_list, update_combobox_options_items]
  have hnon : (update_layer_list w).training_data_non_cell_choice.items
      = get_layer_names w .points := by
    simp [update_layer_list, update_combobox_options_items]
  refine ⟨?_, ?_, ?_, ?_, ?_, ?_, ?_, ?_⟩
  · intro n
    rw [hsig]
    exact mem_get_layer_names w PyType.image n
  · rw [hsig]
    exact nodup_get_layer_names w PyType.image hnd
  · intro n
    rw [hbg]
    exact mem_get_layer_names w PyType.image n
  · rw [hbg]
    exact nodup_get_layer_names w PyType.image hnd
  · intro n
    rw [hcell]
    exact mem_get_layer_names w PyType.points n
  · rw [hcell]
    exact nodup_get_layer_names w PyType.points hnd
  · intro n
    rw [hnon]
    exact mem_get_layer_names w PyType.points n
  · rw [hnon]
    exact nodup_get_layer_names w PyType.points hnd

/-- Claim C5 (witness): the refresh theorem applied at a concrete viewer
with two image layers, one points layer and one points-subclass layer. -/
theorem update_layer_list_exact_witness :
    (update_layer_list wDemo).signal_image_choice.items.Nodup ∧
    (update_layer_list wDemo).training_data_cell_choice.items.Nodup :=
  ⟨(update_layer_list_exact wDemo (by decide)).2.1,
   (update_layer_list_exact wDemo (by decide)).2.2.2.2.2.1⟩

/-- Claim C6: with a non-empty dropdown selection naming a live layer,
each training-data selection callback succeeds, writing exactly the two
metadata keys "point_type" and "training_data" into the selected layer
(every other key of that layer keeps its value) and leaving every other
layer of the viewer unchanged in the collection. -/
theorem set_training_data_touches_only_selected (w : CurationWidget) :
    (∀ l, w.training_data_cell_choice.currentText ≠ "" →
      lookupLayer w.viewerLayers w.training_data_cell_choice.currentText
          = some l →
      set_training_data_cell w = .ok { w with
        viewerLayers :=
          setLayerMeta w.viewerLayers
            w.training_data_cell_choice.currentText .CELL
        training_data_cell_layer := some (tagLayer l .CELL) }) ∧
    (∀ l, w.training_data_non_cell_choice.currentText ≠ "" →
      lookupLayer w.viewerLayers w.training_data_non_cell_choice.currentText
          = some l →
      set_training_data_non_cell w = .ok { w with
        viewerLayers :=
          setLayerMeta w.viewerLayers
            w.training_data_non_cell_choice.currentText .UNKNOWN
        training_data_non_cell_layer := some (tagLayer l .UNKNOWN) }) ∧
    (∀ l c, dictGet (tagLayer l c).metadata "point_type"
        = some (.ofCellType c) ∧
      dictGet (tagLayer l c).metadata "training_data"
        = some (.ofBool true) ∧
      (tagLayer l c).name = l.name ∧
      (tagLayer l c).data = l.data ∧
      (∀ k, k ≠ "point_type" → k ≠ "training_data" →
        dictGet (tagLayer l c).metadata k = dictGet l.metadata k)) ∧
    (∀ name c x, x ∈ setLayerMeta w.viewerLayers name c →
      x.name ≠ name → x ∈ w.viewerLayers) ∧
    (∀ name c x, x ∈ w.viewerLayers → x.name ≠ name →
      x ∈ setLayerMeta w.viewerLayers name c) := by
  refine ⟨?_, ?_, ?_, ?_, ?_⟩
  · intro l hne hfind
    simp [set_training_data_cell, hne, hfind]
  · intro l hne hfind
    simp [set_training_data_non_cell, hne, hfind]
  · intro l c
    exact ⟨tagLayer_point_type l c, tagLayer_training_flag l c, rfl, rfl,
      fun k h1 h2 => tagLayer_other_keys l c k h1 h2⟩
  · intro name c x hx hne
    exact setLayerMeta_mem_of_ne w.viewerLayers name c x hx hne
  · intro name c x hx hne
    exact setLayerMeta_mem_of_mem w.viewerLayers name c x hx hne

/-- Claim C6 (witness): the selection callback applied at a concrete
viewer holding an image layer and the selected points layer. -/
theorem set_training_data_touches_only_selected_witness :
    set_training_data_cell wSel = .ok { wSel with
      viewerLayers := setLayerMeta wSel.viewerLayers "pts" .CELL
      training_data_cell_layer := some (tagLayer ptsLayer .CELL) } :=
  (set_training_data_touches_only_selected wSel).1 ptsLayer
    (by decide) rfl

/-- Claim C7: the record-conversion helper (modelled from the spec, as
invoked by `convert_layers_to_cells`) produces exactly one labeled record
per coordinate row, preserving order and values exactly, labelling every
record `CELL` when the flag is true and `UNKNOWN` when it is false; and
`convert_layers_to_cells` stores exactly those lists in
`cells_to_extract` / `non_cells_to_extract`. -/
theorem convert_layer_to_cells_exact (layer_data : List (List Int))
    (cells : Bool) :
    (convert_layer_to_cells layer_data cells).length = layer_data.length ∧
    (convert_layer_to_cells layer_data cells).map Cell.pos = layer_data ∧
    (convert_layer_to_cells layer_data cells).map Cell.cell_type
      = List.replicate layer_data.length
          (if cells then CellType.CELL else CellType.UNKNOWN) ∧
    (∀ (w : CurationWidget) c n, w.training_data_cell_layer = some c →
      w.training_data_non_cell_layer = some n →
      convert_layers_to_cells w = .ok { w with
        cells_to_extract := some (convert_layer_to_cells c.data)
        non_cells_to_extract :=
          some (convert_layer_to_cells n.data false) }) := by
  refine ⟨?_, ?_, ?_, ?_⟩
  · simp [convert_layer_to_cells]
  · simp only [convert_layer_to_cells, List.map_map, Function.comp_def]
    simp
  · simp only [convert_layer_to_cells, List.map_map, Function.comp_def]
    simp [List.map_const']
  · intro w c n hc hn
    simp [convert_layers_to_cells, hc, hn]

/-- Claim C7 (witness): the conversion facts applied to the concrete
invocation on a widget with both training layers set. -/
theorem convert_layer_to_cells_exact_witness :
    convert_layers_to_cells wBoth = .ok { wBoth with
      cells_to_extract :=
        some (convert_layer_to_cells oneCellPointLayer.data)
      non_cells_to_extract :=
        some (convert_layer_to_cells
          (newPointsLayer "nc0" .UNKNOWN).data false) } :=
  (convert_layer_to_cells_exact [] true).2.2.2 wBoth oneCellPointLayer
    (newPointsLayer "nc0" .UNKNOWN) rfl rfl

/-- Claim C9: `get_output_directory` always leaves `output_directory`
holding a Path value — in particular, when the user cancels the dialog
(empty string result) the field becomes `Path("")`, which normalises to
the relative path "." denoting the current directory, rather than being
left unset or signalling an error. -/
theorem get_output_directory_always_path (w : CurationWidget)
    (dialogResult : String) :
    (get_output_directory w dialogResult).output_directory
      = some (Path dialogResult) ∧
    (get_output_directory w "").output_directory = some (Path "") ∧
    Path "" = ⟨"."⟩ ∧
    (Path "").is_absolute = false ∧
    (get_output_directory w dialogResult).status_label
      = "Setting output directory..." := by
  exact ⟨rfl, rfl, rfl, by decide, rfl⟩

/-- Claim C10: the dropdown enumeration `_get_layer_names` includes a
name exactly when some viewer layer with that name has runtime type
EQUAL to the requested type; consequently a layer whose type is a proper
subclass of the requested type (an instance in the `isinstance` sense)
is excluded, provided no same-named layer has the exact type. -/
theorem get_layer_names_exact_type (w : CurationWidget) (t : PyType)
    (n : String) :
    (n ∈ get_layer_names w t ↔
      ∃ l, l ∈ w.viewerLayers ∧ l.pytype = t ∧ l.name = n) ∧
    isSubclassOf PyType.pointsSubclass PyType.points = true ∧
    isSubclassOf PyType.imageSubclass PyType.image = true ∧
    (∀ l, l ∈ w.viewerLayers → isSubclassOf l.pytype t = true →
      l.pytype ≠ t →
      (∀ x, x ∈ w.viewerLayers → x.name = l.name → x.pytype ≠ t) →
      l.name ∉ get_layer_names w t) := by
  refine ⟨mem_get_layer_names w t n, rfl, rfl, ?_⟩
  intro l _hl _hsub _hne hothers hmem
  obtain ⟨x, hx, hxt, hxn⟩ := (mem_get_layer_names w t l.name).mp hmem
  exact hothers x hx hxn hxt

/-- Claim C10 (witness): the exact-type enumeration applied at the
concrete viewer: the points-subclass layer is excluded from the points
dropdown list. -/
theorem get_layer_names_exact_type_witness :
    "subpts" ∉ get_layer_names wDemo PyType.points :=
  (get_layer_names_exact_type wDemo PyType.points "subpts").2.2.2
    subPtsLayer (by decide) rfl (by decide) (by decide)

end CellfinderNapari
